import Mathlib

/-!
Verification of the screenshot-capture pipeline in `src/main.js` (the
parallel variant, lines 1-274): device user-agent resolution, URL slugging,
the single-capture task `takeSingleScreenshot`, and the batch orchestrator
in `main`.

The JavaScript is shallowly embedded: strings are Lean `String`s (paths are
handled as `List Char` where suffix surgery is needed), the browser
automation and image-encoding collaborators are an explicit environment
(`TaskEnv`) recording, for each awaited external call, whether it resolves
or rejects with an error message, and the observable behaviour of a task is
its returned outcome object plus a trace of the external calls it made and
the files present at the end.
-/

/-- A device descriptor from `config.json`'s `deviceSizes` entries:
`{ name, width, height, userAgent? }`. -/
structure Device where
  name : String
  width : Nat
  height : Nat
  userAgent : Option String := none
deriving DecidableEq, Repr

/-- Embeds `USER_AGENTS.mobile` (src/main.js line 16). -/
def USER_AGENTS_mobile : String :=
  "Mozilla/5.0 (Linux; Android 13; Pixel 7) AppleWebKit/537.36 (KHTML, like Gecko) Chrome/112.0.0.0 Mobile Safari/537.36"

/-- Embeds `USER_AGENTS.tablet` (src/main.js line 18). -/
def USER_AGENTS_tablet : String :=
  "Mozilla/5.0 (iPad; CPU OS 16_5 like Mac OS X) AppleWebKit/605.1.15 (KHTML, like Gecko) Version/16.5 Mobile/15E148 Safari/604.1"

/-- Embeds `USER_AGENTS.desktop` (src/main.js line 20). -/
def USER_AGENTS_desktop : String :=
  "Mozilla/5.0 (Windows NT 10.0; Win64; x64) AppleWebKit/537.36 (KHTML, like Gecko) Chrome/112.0.5615.138 Safari/537.36"

/-- Embeds `getDefaultUserAgent` (src/main.js lines 25-36):
`width <= 600` is mobile, else `width <= 1024` is tablet, else desktop. -/
def getDefaultUserAgent (width : Nat) : String :=
  if width ≤ 600 then USER_AGENTS_mobile
  else if width ≤ 1024 then USER_AGENTS_tablet
  else USER_AGENTS_desktop

/-- Embeds `device.userAgent || getDefaultUserAgent(device.width)` (src/main.js
line 47).  JavaScript `||` falls through on any falsy left operand; for a
string field that means the empty string as well as an absent field. -/
def userAgentToUse (device : Device) : String :=
  match device.userAgent with
  | some ua => if ua = "" then getDefaultUserAgent device.width else ua
  | none => getDefaultUserAgent device.width

/-- The character class `[^a-zA-Z0-9]` replacement by `_` (src/main.js
line 50): alphanumeric characters are kept, everything else becomes an
underscore. -/
def sanitizeChar (c : Char) : Char :=
  if c.isAlphanum then c else '_'

/-- The characters of the scheme text matched greedily by the anchored
regex in src/main.js line 49, long form. -/
def httpsSchemeChars : List Char := ['h', 't', 't', 'p', 's', ':', '/', '/']

/-- The characters of the scheme text matched by the anchored regex in
src/main.js line 49, short form. -/
def httpSchemeChars : List Char := ['h', 't', 't', 'p', ':', '/', '/']

/-- Embeds the scheme strip `url.replace` (src/main.js line 49): an anchored
match, greedy on the optional `s`, removing the scheme prefix when present
and leaving the string unchanged otherwise. -/
def stripSchemeL : List Char → List Char
  | 'h' :: 't' :: 't' :: 'p' :: 's' :: ':' :: '/' :: '/' :: rest => rest
  | 'h' :: 't' :: 't' :: 'p' :: ':' :: '/' :: '/' :: rest => rest
  | cs => cs

/-- The two chained `.replace` calls of src/main.js lines 48-50 on the
character list of the URL. -/
def urlFilenameL (cs : List Char) : List Char :=
  (stripSchemeL cs).map sanitizeChar

/-- Embeds `urlFilename` (src/main.js lines 48-50) as a `String` function. -/
def urlFilename (s : String) : String :=
  ⟨urlFilenameL s.data⟩

/-- Embeds `String(n).padStart(2, "0")` as used on month/day/hours/minutes
(src/main.js lines 206-209). -/
def padStart2 (s : String) : String :=
  if s.length = 0 then "00"
  else if s.length = 1 then "0" ++ s
  else s

/-- The run-directory timestamp `YYYY-MM-DD_HHMM` (src/main.js lines
204-210); the arguments are the already-extracted calendar numbers, with
`month` the human one-based month. -/
def currentDateTime (year month day hours minutes : Nat) : String :=
  Nat.repr year ++ "-" ++ padStart2 (Nat.repr month) ++ "-" ++
    padStart2 (Nat.repr day) ++ "_" ++ padStart2 (Nat.repr hours) ++
    padStart2 (Nat.repr minutes)

/-- One entry in the trace of external calls a capture task makes; each
constructor is one awaited collaborator call from src/main.js lines 70-150
(`logError` is the `console.error` in the catch block, carrying the text it
prints). -/
inductive Event where
  | newContext
  | newPage
  | goto (url : String)
  | waitForSelector
  | click
  | scrollDown
  | scrollTop
  | waitForLoadState
  | screenshotTaken
  | convertToWebp
  | deleteIntermediate
  | logError (firstLineMsg : String)
  | closeContext
deriving DecidableEq, Repr

/-- The behaviour of the external collaborators for one capture task: for
each awaited call, `none` means the call resolves, `some msg` means it
rejects with an `Error` whose `.message` is `msg`. -/
structure TaskEnv where
  newContextRes : Option String := none
  newPageRes : Option String := none
  gotoRes : Option String := none
  waitForSelectorRes : Option String := none
  clickRes : Option String := none
  scrollDownRes : Option String := none
  scrollTopRes : Option String := none
  waitForLoadStateRes : Option String := none
  screenshotRes : Option String := none
  sharpRes : Option String := none
  unlinkRes : Option String := none
deriving DecidableEq, Repr

/-- Mutable observable state threaded through a capture task: the trace of
external calls made so far, and the files existing in the run directory
(paths as character lists). -/
abbrev CaptureSt := List Event × List (List Char)

/-- Perform one awaited external call: the call is recorded in the trace,
then either resolves or throws according to the environment. -/
def stepEv (res : Option String) (e : Event) (s : CaptureSt) :
    Except String Unit × CaptureSt :=
  match res with
  | none => (.ok (), (s.1 ++ [e], s.2))
  | some msg => (.error msg, (s.1 ++ [e], s.2))

/-- Sequencing inside the `try` block: run `a`; if it threw, propagate the
exception (keeping the state reached so far), otherwise continue with `b`. -/
def andThen (a b : CaptureSt → Except String Unit × CaptureSt)
    (s : CaptureSt) : Except String Unit × CaptureSt :=
  match a s with
  | (.ok _, s₁) => b s₁
  | (.error msg, s₁) => (.error msg, s₁)

/-- src/main.js lines 72-76: `browser.newContext`, `context.newPage`,
`page.goto(url, ...)`. -/
def navigatePhase (env : TaskEnv) (url : String) : CaptureSt →
    Except String Unit × CaptureSt :=
  andThen (stepEv env.newContextRes .newContext)
    (andThen (stepEv env.newPageRes .newPage)
      (stepEv env.gotoRes (.goto url)))

/-- src/main.js lines 79-89, the inner `try`: wait for the consent button
and click it; any exception from either call is swallowed and leaves
`hasCookieConsent` false.  This phase never throws. -/
def consentPhase (env : TaskEnv) (s : CaptureSt) : CaptureSt × Bool :=
  match stepEv env.waitForSelectorRes .waitForSelector s with
  | (.ok _, s₁) =>
    match stepEv env.clickRes .click s₁ with
    | (.ok _, s₂) => (s₂, true)
    | (.error _, s₂) => (s₂, false)
  | (.error _, s₁) => (s₁, false)

/-- src/main.js lines 92-112: the two `page.evaluate` calls (incremental
scroll to the bottom, then jump back to the top), run only when
`hasCookieConsent` is true. -/
def scrollPhase (env : TaskEnv) (hasCookieConsent : Bool) (s : CaptureSt) :
    Except String Unit × CaptureSt :=
  if hasCookieConsent then
    andThen (stepEv env.scrollDownRes .scrollDown)
      (stepEv env.scrollTopRes .scrollTop) s
  else (.ok (), s)

/-- src/main.js lines 115-134: `waitForLoadState`, `page.screenshot` (which
creates the intermediate PNG on success), the sharp re-encode (which
creates the WebP on success), and `fs.unlink` of the PNG. -/
def capturePhase (env : TaskEnv) (png webp : List Char) (s : CaptureSt) :
    Except String Unit × CaptureSt :=
  andThen (stepEv env.waitForLoadStateRes .waitForLoadState)
    (andThen (fun s₁ =>
      match env.screenshotRes with
      | none => (.ok (), (s₁.1 ++ [.screenshotTaken], s₁.2 ++ [png]))
      | some msg => (.error msg, (s₁.1 ++ [.screenshotTaken], s₁.2)))
      (andThen (fun s₂ =>
        match env.sharpRes with
        | none => (.ok (), (s₂.1 ++ [.convertToWebp], s₂.2 ++ [webp]))
        | some msg => (.error msg, (s₂.1 ++ [.convertToWebp], s₂.2)))
        (fun s₃ =>
          match env.unlinkRes with
          | none => (.ok (), (s₃.1 ++ [.deleteIntermediate],
              s₃.2.filter (fun f => decide (f ≠ png))))
          | some msg => (.error msg, (s₃.1 ++ [.deleteIntermediate], s₃.2)))))
    s

/-- The extension `".png"` as characters. -/
def pngExtChars : List Char := ['.', 'p', 'n', 'g']

/-- The extension `".webp"` as characters. -/
def webpExtChars : List Char := ['.', 'w', 'e', 'b', 'p']

/-- The intermediate screenshot path
`path.join(dateTimeDir, urlFilename_name_width.png)` (src/main.js lines
118-121). -/
def pngPathL (dateTimeDir : String) (url : String) (device : Device) :
    List Char :=
  dateTimeDir.data ++ ['/'] ++ urlFilenameL url.data ++ ['_'] ++
    device.name.data ++ ['_'] ++ (Nat.repr device.width).data ++ pngExtChars

/-- Embeds the extension swap `screenshotPath.replace` (src/main.js line 130): if
the path ends in `.png`, the suffix becomes `.webp`, otherwise the path is
unchanged.  The suffix test is done on the reversed character list. -/
def replacePngWithWebpL (cs : List Char) : List Char :=
  match cs.reverse with
  | 'g' :: 'n' :: 'p' :: '.' :: restRev =>
      ('p' :: 'b' :: 'e' :: 'w' :: '.' :: restRev).reverse
  | _ => cs

/-- The whole protected region of `takeSingleScreenshot` (the `try` block,
src/main.js lines 70-137). -/
def tryBody (env : TaskEnv) (url : String) (device : Device)
    (dateTimeDir : String) : Except String Unit × CaptureSt :=
  let png := pngPathL dateTimeDir url device
  let webp := replacePngWithWebpL png
  match navigatePhase env url ([], []) with
  | (.error msg, s) => (.error msg, s)
  | (.ok _, s) =>
    match consentPhase env s with
    | (s₁, hasCookieConsent) =>
      andThen (scrollPhase env hasCookieConsent) (capturePhase env png webp) s₁

/-- The characters before the first newline: the list form of
`message.split("\n")[0]`. -/
def firstLineL : List Char → List Char
  | [] => []
  | c :: cs => if c = '\n' then [] else c :: firstLineL cs

/-- Embeds the log truncation `error.message.split` at src/main.js line 141: everything up to
(excluding) the first newline, or the whole message when it has none. -/
def firstLine (s : String) : String :=
  ⟨firstLineL s.data⟩

/-- The object returned by `takeSingleScreenshot` on either exit path
(src/main.js lines 137 and 145): `status` is the sentinel string field,
`device` holds `device.name`, and `error` is present only on failure,
carrying the full `error.message`. -/
structure TaskOutcome where
  status : String
  url : String
  device : String
  error : Option String := none
deriving DecidableEq, Repr

/-- The complete observable result of one capture task. -/
structure TaskResult where
  outcome : TaskOutcome
  events : List Event
  files : List (List Char)
deriving DecidableEq, Repr

/-- Embeds `takeSingleScreenshot` (src/main.js lines 45-152): run the `try` block;
on an exception, the `catch` logs the first line of the message and builds
a rejected-sentinel outcome carrying the full message; the `finally` closes
the context whenever `browser.newContext` had succeeded.  The function
itself always returns an outcome object — it never lets an exception
escape. -/
def takeSingleScreenshot (env : TaskEnv) (url : String) (device : Device)
    (dateTimeDir : String) : TaskResult :=
  match tryBody env url device dateTimeDir with
  | (.ok _, s) =>
    let events := (match env.newContextRes with
      | none => s.1 ++ [.closeContext]
      | some _ => s.1)
    { outcome := { status := "fulfilled", url := url, device := device.name },
      events := events, files := s.2 }
  | (.error msg, s) =>
    let logged := s.1 ++ [.logError (firstLine msg)]
    let events := (match env.newContextRes with
      | none => logged ++ [.closeContext]
      | some _ => logged)
    { outcome := { status := "rejected", url := url, device := device.name,
                   error := some msg },
      events := events, files := s.2 }

/-- The shape of one `Promise.allSettled` entry (src/main.js line 234):
`fulfilled` with the promise's value, or `rejected` with a reason. -/
inductive Settled (α : Type) where
  | fulfilled (value : α)
  | rejected (reason : String)
deriving DecidableEq, Repr

/-- How one capture task's promise settles.  `takeSingleScreenshot` is an
async function that returns an outcome object on every path (both its `try`
and its `catch` end in `return`), so the promise pushed at src/main.js
line 225 always fulfills, with the returned outcome as its value —
`Promise.allSettled` never sees it as rejected. -/
def settleTask (env : TaskEnv) (url : String) (device : Device)
    (dateTimeDir : String) : Settled TaskOutcome :=
  .fulfilled (takeSingleScreenshot env url device dateTimeDir).outcome

/-- The dispatch loops of src/main.js lines 222-229: for each url (outer)
and each device (inner), one task is pushed. -/
def crossTasks (urlList : List String) (deviceSizes : List Device) :
    List (String × Device) :=
  urlList.flatMap (fun url => deviceSizes.map (fun device => (url, device)))

/-- One iteration of the `results.forEach` tally (src/main.js lines
239-249): the branch inspects `result.status` of the `allSettled` wrapper
entry. -/
def tallyStep : Nat × Nat → Settled TaskOutcome → Nat × Nat
  | (s, f), .fulfilled _ => (s + 1, f)
  | (s, f), .rejected _ => (s, f + 1)

/-- The success/failure tally over all settled results (src/main.js lines
237-249). -/
def tallyCounts (results : List (Settled TaskOutcome)) : Nat × Nat :=
  results.foldl tallyStep (0, 0)

/-- The aggregate numbers printed at src/main.js lines 253-255, plus the
number of settled results that were collected. -/
structure Summary where
  total : Nat
  collected : Nat
  successCount : Nat
  failureCount : Nat
deriving DecidableEq, Repr

/-- The post-validation orchestration of `main` (src/main.js lines
198-256): build the url × device cross product, run every task against the
shared browser, wait for all of them to settle, and tally. -/
def orchestrate (urlList : List String) (deviceSizes : List Device)
    (taskEnv : String → Device → TaskEnv) (dateTimeDir : String) : Summary :=
  let results := (crossTasks urlList deviceSizes).map
    (fun p => settleTask (taskEnv p.1 p.2) p.1 p.2 dateTimeDir)
  let counts := tallyCounts results
  { total := urlList.length * deviceSizes.length,
    collected := results.length,
    successCount := counts.1, failureCount := counts.2 }

/-- The parsed `config.json` object as far as the orchestrator reads it:
each field is `none` when absent (or not an array). -/
structure Config where
  urlList : Option (List String) := none
  deviceSizes : Option (List Device) := none

/-- The `urlList` validation (src/main.js lines 180-185): present and
non-empty. -/
def validUrlList (c : Config) : Bool :=
  match c.urlList with
  | some l => !l.isEmpty
  | none => false

/-- Embeds `d.name && d.width && d.height` (src/main.js line 190): every field
truthy, i.e. a non-empty name and non-zero dimensions. -/
def truthyDevice (d : Device) : Bool :=
  (d.name != "") && (d.width != 0) && (d.height != 0)

/-- The `deviceSizes` validation (src/main.js lines 186-196): present,
non-empty, and every descriptor truthy in all three required fields. -/
def validDeviceSizes (c : Config) : Bool :=
  match c.deviceSizes with
  | some ds => !ds.isEmpty && ds.all truthyDevice
  | none => false

/-- Run-level observable actions of the program. -/
inductive RunEvent where
  | mkdirOutputRoot
  | mkdirRunDir
  | launchBrowser
  | printSummary (total successCount failureCount : Nat)
  | closeBrowser
deriving DecidableEq, Repr

/-- The module-level side effect (src/main.js lines 39-42): the root output
directory is created, if missing, when the module loads — before `main`
runs at all. -/
def moduleInitEvents (rootDirExists : Bool) : List RunEvent :=
  if rootDirExists then [] else [.mkdirOutputRoot]

/-- What a whole run produces: its run-level event trace, the process exit
code, and the printed summary when one was reached. -/
structure RunResult where
  events : List RunEvent
  exitCode : Nat
  summary : Option Summary
deriving DecidableEq, Repr

/-- Embeds `main` from the point the parsed config is in hand (src/main.js lines
176-266): validate `urlList` then `deviceSizes`, exiting with code 1 on
either violation; otherwise create the timestamped run directory if
missing, launch the browser, dispatch and settle every task, print the
summary, and close the browser; normal completion exits 0. -/
def mainRun (c : Config) (runDirExists : Bool)
    (taskEnv : String → Device → TaskEnv) (dateTimeDir : String) : RunResult :=
  if !validUrlList c then { events := [], exitCode := 1, summary := none }
  else if !validDeviceSizes c then { events := [], exitCode := 1, summary := none }
  else
    let urls := c.urlList.getD []
    let devices := c.deviceSizes.getD []
    let dirEvents := (if runDirExists then [] else [RunEvent.mkdirRunDir])
    let S := orchestrate urls devices taskEnv dateTimeDir
    { events := dirEvents ++ [.launchBrowser,
        .printSummary S.total S.successCount S.failureCount, .closeBrowser],
      exitCode := 0, summary := some S }

/-- The whole process: module-load side effects, then `main`. -/
def programRun (rootDirExists : Bool) (c : Config) (runDirExists : Bool)
    (taskEnv : String → Device → TaskEnv) (dateTimeDir : String) : RunResult :=
  let r := mainRun c runDirExists taskEnv dateTimeDir
  { r with events := moduleInitEvents rootDirExists ++ r.events }

/-- Occurrence count of an event in a trace. -/
def countEv (e : Event) : List Event → Nat
  | [] => 0
  | x :: xs => (if x = e then 1 else 0) + countEv e xs

lemma countEv_append (e : Event) (l₁ l₂ : List Event) :
    countEv e (l₁ ++ l₂) = countEv e l₁ + countEv e l₂ := by
  induction l₁ with
  | nil => simp [countEv]
  | cons x xs ih => simp [countEv, ih, Nat.add_assoc]

lemma getDefaultUserAgent_ne_empty (w : Nat) : getDefaultUserAgent w ≠ "" := by
  unfold getDefaultUserAgent
  split
  · decide
  · split <;> decide

/-- Claim C3: if `device.userAgent` is set (to a truthy, i.e. non-empty,
string) the resolver returns it unchanged whatever the width; otherwise the
width-based default applies: mobile for width ≤ 600, tablet for
600 < width ≤ 1024, desktop for width > 1024, both tier upper bounds
inclusive. -/
theorem userAgent_resolution (d : Device) :
    (∀ ua : String, d.userAgent = some ua → ua ≠ "" → userAgentToUse d = ua) ∧
    (d.userAgent = none →
      (d.width ≤ 600 → userAgentToUse d = USER_AGENTS_mobile) ∧
      (600 < d.width → d.width ≤ 1024 → userAgentToUse d = USER_AGENTS_tablet) ∧
      (1024 < d.width → userAgentToUse d = USER_AGENTS_desktop)) := by
  constructor
  · intro ua h hne
    simp [userAgentToUse, h, hne]
  · intro h
    refine ⟨fun h1 => ?_, fun h1 h2 => ?_, fun h1 => ?_⟩ <;>
      · simp only [userAgentToUse, h]
        unfold getDefaultUserAgent
        first
          | rw [if_pos (by omega)]
          | rw [if_neg (by omega), if_pos (by omega)]
          | rw [if_neg (by omega), if_neg (by omega)]

/-- Witness for C3 at a concrete device with an explicit user agent. -/
theorem userAgent_resolution_witness :
    userAgentToUse { name := "m", width := 1300, height := 800,
                     userAgent := some "CustomUA" } = "CustomUA" :=
  (userAgent_resolution _).1 "CustomUA" rfl (by decide)

/-- Claim C10: a present-but-empty (falsy) `userAgent` is not returned
unchanged; the `||` fallback substitutes the width-based default. -/
theorem emptyUserAgent_usesDefault (n : String) (w h : Nat) :
    userAgentToUse { name := n, width := w, height := h, userAgent := some "" } =
      getDefaultUserAgent w ∧
    userAgentToUse { name := n, width := w, height := h, userAgent := some "" } ≠ "" := by
  constructor
  · simp [userAgentToUse]
  · simp [userAgentToUse]
    exact getDefaultUserAgent_ne_empty w

/-- Claim C7: the slug of a URL is the URL with a leading `http://` or
`https://` stripped and every remaining character that is not alphanumeric
replaced by an underscore; in particular `https://example.com/a?b=1` slugs
to `example_com_a_b_1`. -/
theorem urlSlug_spec :
    urlFilename "https://example.com/a?b=1" = "example_com_a_b_1" ∧
    (∀ rest : List Char,
      urlFilenameL (httpsSchemeChars ++ rest) = rest.map sanitizeChar) ∧
    (∀ rest : List Char,
      urlFilenameL (httpSchemeChars ++ rest) = rest.map sanitizeChar) ∧
    (∀ c : Char, c.isAlphanum = true → sanitizeChar c = c) ∧
    (∀ c : Char, c.isAlphanum = false → sanitizeChar c = '_') := by
  refine ⟨by decide, fun rest => rfl, fun rest => rfl, fun c h => ?_, fun c h => ?_⟩
  · simp [sanitizeChar, h]
  · simp [sanitizeChar, h]

/-- Witness for C7 on the per-character hypotheses. -/
theorem urlSlug_spec_witness :
    sanitizeChar 'a' = 'a' ∧ sanitizeChar '?' = '_' :=
  ⟨urlSlug_spec.2.2.2.1 'a' (by decide), urlSlug_spec.2.2.2.2 '?' (by decide)⟩

/-- Claim C4: whatever the collaborators do — any of navigation, consent
handling, scrolling, the final quiescence wait, the screenshot, the
re-encode or the intermediate-file deletion may throw — the capture task
returns a structured outcome (a fulfilled one with no error, or a rejected
one carrying the url, the device name and an error message); it never
propagates the exception. -/
theorem captureTask_neverRaises (env : TaskEnv) (url : String)
    (device : Device) (dir : String) :
    (takeSingleScreenshot env url device dir).outcome =
      { status := "fulfilled", url := url, device := device.name } ∨
    ∃ msg, (takeSingleScreenshot env url device dir).outcome =
      { status := "rejected", url := url, device := device.name,
        error := some msg } := by
  rcases h : tryBody env url device dir with ⟨res, s⟩
  cases res with
  | ok _ => exact Or.inl (by simp [takeSingleScreenshot, h])
  | error msg => exact Or.inr ⟨msg, by simp [takeSingleScreenshot, h]⟩

lemma crossTasks_length (urls : List String) (devices : List Device) :
    (crossTasks urls devices).length = urls.length * devices.length := by
  induction urls with
  | nil => simp [crossTasks]
  | cons u us ih =>
    simp only [crossTasks, List.flatMap_cons, List.length_append,
      List.length_map, List.length_cons] at ih ⊢
    rw [ih, Nat.succ_mul, Nat.add_comm]

lemma tally_sum (l : List (Settled TaskOutcome)) (s f : Nat) :
    (l.foldl tallyStep (s, f)).1 + (l.foldl tallyStep (s, f)).2 =
      s + f + l.length := by
  induction l generalizing s f with
  | nil => simp
  | cons r rs ih =>
    cases r <;> simp only [List.foldl_cons, tallyStep, List.length_cons] <;>
      rw [ih] <;> omega

/-- Claim C2: for non-empty inputs with U urls and D devices, exactly U×D
tasks are dispatched, every one of them settles and is collected, and the
tallied successCount + failureCount is U×D — for every behaviour of the
collaborators, including one where every task fails. -/
theorem batch_counts_complete (urls : List String) (devices : List Device)
    (taskEnv : String → Device → TaskEnv) (dir : String)
    (_hu : urls ≠ []) (_hd : devices ≠ []) :
    (crossTasks urls devices).length = urls.length * devices.length ∧
    (orchestrate urls devices taskEnv dir).collected =
      urls.length * devices.length ∧
    (orchestrate urls devices taskEnv dir).successCount +
      (orchestrate urls devices taskEnv dir).failureCount =
      urls.length * devices.length := by
  refine ⟨crossTasks_length urls devices, ?_, ?_⟩
  · simp [orchestrate, crossTasks_length]
  · show (tallyCounts _).1 + (tallyCounts _).2 = _
    unfold tallyCounts
    rw [tally_sum]
    simp [crossTasks_length]

/-- Witness for C2, with an environment that makes every task fail its
navigation. -/
theorem batch_counts_complete_witness :
    (crossTasks ["https://a.test", "https://b.test"]
        [{ name := "desktop", width := 1280, height := 800 }]).length =
      (["https://a.test", "https://b.test"] : List String).length *
        ([{ name := "desktop", width := 1280, height := 800 }] : List Device).length ∧
    (orchestrate ["https://a.test", "https://b.test"]
        [{ name := "desktop", width := 1280, height := 800 }]
        (fun _ _ => { gotoRes := some "timeout" }) "out").collected =
      (["https://a.test", "https://b.test"] : List String).length *
        ([{ name := "desktop", width := 1280, height := 800 }] : List Device).length ∧
    (orchestrate ["https://a.test", "https://b.test"]
        [{ name := "desktop", width := 1280, height := 800 }]
        (fun _ _ => { gotoRes := some "timeout" }) "out").successCount +
      (orchestrate ["https://a.test", "https://b.test"]
        [{ name := "desktop", width := 1280, height := 800 }]
        (fun _ _ => { gotoRes := some "timeout" }) "out").failureCount =
      (["https://a.test", "https://b.test"] : List String).length *
        ([{ name := "desktop", width := 1280, height := 800 }] : List Device).length :=
  batch_counts_complete ["https://a.test", "https://b.test"]
    [{ name := "desktop", width := 1280, height := 800 }]
    (fun _ _ => { gotoRes := some "timeout" }) "out"
    (by decide) (by decide)

/-- Claim C1 evidence: with one url and one device, the mock navigation
rejecting and every other step succeeding, the task itself returns a
rejected-sentinel outcome, yet the run's summary reports successCount = 1
and failureCount = 0 (the exit code is 0): because `takeSingleScreenshot`
catches the error and returns, its promise fulfills, so the tally that
inspects the `Promise.allSettled` wrapper status counts the failed task as
a success. -/
theorem failedTask_counted_fulfilled :
    (takeSingleScreenshot { gotoRes := some "page.goto: Timeout 60000ms exceeded" }
        "https://a.test" { name := "desktop", width := 1280, height := 800 }
        "out").outcome =
      { status := "rejected", url := "https://a.test", device := "desktop",
        error := some "page.goto: Timeout 60000ms exceeded" } ∧
    programRun true
        { urlList := some ["https://a.test"],
          deviceSizes := some [{ name := "desktop", width := 1280, height := 800 }] }
        true
        (fun _ _ => { gotoRes := some "page.goto: Timeout 60000ms exceeded" })
        "out" =
      { events := [.launchBrowser, .printSummary 1 1 0, .closeBrowser],
        exitCode := 0,
        summary := some { total := 1, collected := 1,
                          successCount := 1, failureCount := 0 } } := by
  exact ⟨rfl, rfl⟩

/-- Counterexample to claim C5 as stated: when navigation rejects with a
three-line error message, the failure outcome's `error` field carries the
full multi-line message (src/main.js line 145), not its first line — the
first-line truncation only happens in the `console.error` diagnostic. -/
theorem failureOutcome_not_truncated :
    (takeSingleScreenshot
        { gotoRes := some "line one\nline two\nline three" } "https://a.test"
        { name := "desktop", width := 1280, height := 800 } "out").outcome.error =
      some "line one\nline two\nline three" ∧
    firstLine "line one\nline two\nline three" = "line one" ∧
    (takeSingleScreenshot
        { gotoRes := some "line one\nline two\nline three" } "https://a.test"
        { name := "desktop", width := 1280, height := 800 } "out").outcome.error ≠
      some (firstLine "line one\nline two\nline three") := by
  refine ⟨rfl, rfl, by decide⟩

/-- Claim C5 as amended: every exception caught at the task boundary yields
a failure outcome carrying the url, the device name, and the full error
message; the first line of the message appears (only) in the per-task
console diagnostic. -/
theorem failureOutcome_fields (env : TaskEnv) (url : String)
    (device : Device) (dir : String) (msg : String)
    (h : (tryBody env url device dir).1 = .error msg) :
    (takeSingleScreenshot env url device dir).outcome =
      { status := "rejected", url := url, device := device.name,
        error := some msg } ∧
    Event.logError (firstLine msg) ∈ (takeSingleScreenshot env url device dir).events := by
  rcases h2 : tryBody env url device dir with ⟨res, s⟩
  rw [h2] at h
  simp only at h
  cases res with
  | ok _ => exact absurd h (by simp)
  | error m =>
    have hm : m = msg := by
      simpa using h
    subst hm
    constructor
    · simp [takeSingleScreenshot, h2]
    · cases hn : env.newContextRes <;> simp [takeSingleScreenshot, h2, hn]

/-- Witness for C5 (amended) at a concrete failing navigation. -/
theorem failureOutcome_fields_witness :
    (takeSingleScreenshot { gotoRes := some "boom\nstack" } "https://a.test"
        { name := "desktop", width := 1280, height := 800 } "out").outcome =
      { status := "rejected", url := "https://a.test", device := "desktop",
        error := some "boom\nstack" } ∧
    Event.logError (firstLine "boom\nstack") ∈
      (takeSingleScreenshot { gotoRes := some "boom\nstack" } "https://a.test"
        { name := "desktop", width := 1280, height := 800 } "out").events :=
  failureOutcome_fields { gotoRes := some "boom\nstack" } "https://a.test"
    { name := "desktop", width := 1280, height := 800 } "out" "boom\nstack" rfl

lemma capturePhase_scrollCount (env : TaskEnv) (png webp : List Char)
    (s : CaptureSt) :
    countEv .scrollDown (capturePhase env png webp s).2.1 =
      countEv .scrollDown s.1 ∧
    countEv .scrollTop (capturePhase env png webp s).2.1 =
      countEv .scrollTop s.1 := by
  cases hw : env.waitForLoadStateRes <;> cases hs : env.screenshotRes <;>
    cases hc : env.sharpRes <;> cases hu : env.unlinkRes <;>
      simp [capturePhase, andThen, stepEv, hw, hs, hc, hu,
        countEv_append, countEv]

lemma takeSingle_scrollCount (env : TaskEnv) (url : String) (device : Device)
    (dir : String) :
    countEv .scrollDown (takeSingleScreenshot env url device dir).events =
      countEv .scrollDown (tryBody env url device dir).2.1 ∧
    countEv .scrollTop (takeSingleScreenshot env url device dir).events =
      countEv .scrollTop (tryBody env url device dir).2.1 := by
  rcases h : tryBody env url device dir with ⟨res, s⟩
  cases res <;> cases hn : env.newContextRes <;>
    simp [takeSingleScreenshot, h, hn, countEv_append, countEv]

/-- Claim C6: with navigation succeeding, the scroll sequence runs if and
only if the consent control was found and clicked.  When the consent wait
rejects (times out), no scroll is ever invoked, and the timeout is
swallowed: if the rest of the pipeline succeeds the task still fulfills.
When the wait succeeds but the click throws, no scroll is invoked either.
When both succeed, the down-scroll is invoked exactly once, and (when it
completes) the jump back to the top exactly once. -/
theorem consent_gates_scroll (env : TaskEnv) (url : String) (device : Device)
    (dir : String) (h1 : env.newContextRes = none) (h2 : env.newPageRes = none)
    (h3 : env.gotoRes = none) :
    ((∃ t, env.waitForSelectorRes = some t) →
      countEv .scrollDown (takeSingleScreenshot env url device dir).events = 0 ∧
      (env.waitForLoadStateRes = none → env.screenshotRes = none →
        env.sharpRes = none → env.unlinkRes = none →
        (takeSingleScreenshot env url device dir).outcome.status = "fulfilled")) ∧
    (env.waitForSelectorRes = none → (∃ t, env.clickRes = some t) →
      countEv .scrollDown (takeSingleScreenshot env url device dir).events = 0) ∧
    (env.waitForSelectorRes = none → env.clickRes = none →
      countEv .scrollDown (takeSingleScreenshot env url device dir).events = 1 ∧
      (env.scrollDownRes = none →
        countEv .scrollTop (takeSingleScreenshot env url device dir).events = 1)) := by
  refine ⟨?_, ?_, ?_⟩
  · rintro ⟨t, hw⟩
    constructor
    · rw [(takeSingle_scrollCount env url device dir).1]
      simp [tryBody, navigatePhase, consentPhase, scrollPhase, andThen,
        stepEv, h1, h2, h3, hw]
      rw [(capturePhase_scrollCount env _ _ _).1]
      simp [countEv]
    · intro h4 h5 h6 h7
      simp [takeSingleScreenshot, tryBody, navigatePhase, consentPhase,
        scrollPhase, capturePhase, andThen, stepEv, h1, h2, h3, hw, h4, h5, h6, h7]
  · rintro hw ⟨t, hc⟩
    rw [(takeSingle_scrollCount env url device dir).1]
    simp [tryBody, navigatePhase, consentPhase, scrollPhase, andThen,
      stepEv, h1, h2, h3, hw, hc]
    rw [(capturePhase_scrollCount env _ _ _).1]
    simp [countEv]
  · intro hw hc
    constructor
    · rw [(takeSingle_scrollCount env url device dir).1]
      cases hsd : env.scrollDownRes with
      | none =>
        cases hst : env.scrollTopRes with
        | none =>
          simp [tryBody, navigatePhase, consentPhase, scrollPhase,
            andThen, stepEv, h1, h2, h3, hw, hc, hsd, hst]
          rw [(capturePhase_scrollCount env _ _ _).1]
          simp [countEv, countEv_append]
        | some m =>
          simp [tryBody, navigatePhase, consentPhase, scrollPhase, andThen,
            stepEv, h1, h2, h3, hw, hc, hsd, hst, countEv, countEv_append]
      | some m =>
        simp [tryBody, navigatePhase, consentPhase, scrollPhase, andThen,
          stepEv, h1, h2, h3, hw, hc, hsd, countEv, countEv_append]
    · intro hsd
      rw [(takeSingle_scrollCount env url device dir).2]
      cases hst : env.scrollTopRes with
      | none =>
        simp [tryBody, navigatePhase, consentPhase, scrollPhase,
          andThen, stepEv, h1, h2, h3, hw, hc, hsd, hst]
        rw [(capturePhase_scrollCount env _ _ _).2]
        simp [countEv, countEv_append]
      | some m =>
        simp [tryBody, navigatePhase, consentPhase, scrollPhase, andThen,
          stepEv, h1, h2, h3, hw, hc, hsd, hst, countEv, countEv_append]

/-- Witness for C6 at a concrete environment where the consent control is
found and clicked and every step succeeds. -/
theorem consent_gates_scroll_witness :
    ((∃ t, ({} : TaskEnv).waitForSelectorRes = some t) →
      countEv .scrollDown (takeSingleScreenshot {} "https://a.test"
        { name := "desktop", width := 1280, height := 800 } "out").events = 0 ∧
      (({} : TaskEnv).waitForLoadStateRes = none → ({} : TaskEnv).screenshotRes = none →
        ({} : TaskEnv).sharpRes = none → ({} : TaskEnv).unlinkRes = none →
        (takeSingleScreenshot {} "https://a.test"
          { name := "desktop", width := 1280, height := 800 } "out").outcome.status =
          "fulfilled")) ∧
    (({} : TaskEnv).waitForSelectorRes = none → (∃ t, ({} : TaskEnv).clickRes = some t) →
      countEv .scrollDown (takeSingleScreenshot {} "https://a.test"
        { name := "desktop", width := 1280, height := 800 } "out").events = 0) ∧
    (({} : TaskEnv).waitForSelectorRes = none → ({} : TaskEnv).clickRes = none →
      countEv .scrollDown (takeSingleScreenshot {} "https://a.test"
        { name := "desktop", width := 1280, height := 800 } "out").events = 1 ∧
      (({} : TaskEnv).scrollDownRes = none →
        countEv .scrollTop (takeSingleScreenshot {} "https://a.test"
          { name := "desktop", width := 1280, height := 800 } "out").events = 1)) :=
  consent_gates_scroll {} "https://a.test"
    { name := "desktop", width := 1280, height := 800 } "out" rfl rfl rfl

lemma replacePng_append (stem : List Char) :
    replacePngWithWebpL (stem ++ pngExtChars) = stem ++ webpExtChars := by
  simp [replacePngWithWebpL, pngExtChars, webpExtChars, List.reverse_append]

lemma webp_ne_png (stem : List Char) :
    stem ++ webpExtChars ≠ stem ++ pngExtChars := by
  intro h
  have hlen := congrArg List.length h
  simp only [List.length_append] at hlen
  simp [pngExtChars, webpExtChars] at hlen

lemma capturePhase_allOk (png webp : List Char) (hne : webp ≠ png)
    (ev : List Event) :
    capturePhase {} png webp (ev, []) =
      (.ok (), (ev ++ [.waitForLoadState, .screenshotTaken, .convertToWebp,
                       .deleteIntermediate], [webp])) := by
  simp [capturePhase, andThen, stepEv, List.filter, hne]

lemma task_allOk (url dir : String) (device : Device) :
    takeSingleScreenshot {} url device dir =
      { outcome := { status := "fulfilled", url := url, device := device.name },
        events := [.newContext, .newPage, .goto url, .waitForSelector, .click,
                   .scrollDown, .scrollTop, .waitForLoadState, .screenshotTaken,
                   .convertToWebp, .deleteIntermediate, .closeContext],
        files := [dir.data ++ ['/'] ++ urlFilenameL url.data ++ ['_'] ++
                  device.name.data ++ ['_'] ++ (Nat.repr device.width).data ++
                  webpExtChars] } := by
  have hwebp : replacePngWithWebpL (pngPathL dir url device) =
      dir.data ++ ['/'] ++ urlFilenameL url.data ++ ['_'] ++
        device.name.data ++ ['_'] ++ (Nat.repr device.width).data ++
        webpExtChars := by
    simp only [pngPathL]
    rw [replacePng_append]
  have hne : replacePngWithWebpL (pngPathL dir url device) ≠
      pngPathL dir url device := by
    rw [hwebp]
    simp only [pngPathL]
    exact webp_ne_png _
  have hcap := capturePhase_allOk (pngPathL dir url device)
    (replacePngWithWebpL (pngPathL dir url device)) hne
  simp only [takeSingleScreenshot, tryBody, navigatePhase, consentPhase,
    scrollPhase, andThen, stepEv, if_true]
  rw [hcap]
  simp [hwebp]

/-- Claim C8: a fully successful task leaves exactly one file, the WebP
artifact at `<root>/<YYYY-MM-DD_HHMM>/<urlSlug>_<deviceName>_<width>.webp`;
the intermediate PNG of the same stem, created first, is deleted after the
re-encode and is absent from the final file set.  Concretely, url
`https://a.test` with device desktop 1280x800 yields
`<run-dir>/a_test_desktop_1280.webp`. -/
lemma replacePng_pngPath (dir url : String) (device : Device) :
    replacePngWithWebpL (pngPathL dir url device) =
      dir.data ++ ['/'] ++ urlFilenameL url.data ++ ['_'] ++
        device.name.data ++ ['_'] ++ (Nat.repr device.width).data ++
        webpExtChars := by
  simp only [pngPathL]
  rw [replacePng_append]

lemma webpPath_ne_pngPath (dir url : String) (device : Device) :
    replacePngWithWebpL (pngPathL dir url device) ≠ pngPathL dir url device := by
  rw [replacePng_pngPath]
  simp only [pngPathL]
  exact webp_ne_png _

lemma navigatePhase_files (env : TaskEnv) (url : String) (s : CaptureSt) :
    (navigatePhase env url s).2.2 = s.2 := by
  cases h1 : env.newContextRes <;> cases h2 : env.newPageRes <;>
    cases h3 : env.gotoRes <;>
      simp [navigatePhase, andThen, stepEv, h1, h2, h3]

lemma consentPhase_files (env : TaskEnv) (s : CaptureSt) :
    (consentPhase env s).1.2 = s.2 := by
  cases h1 : env.waitForSelectorRes <;> cases h2 : env.clickRes <;>
    simp [consentPhase, stepEv, h1, h2]

lemma scrollPhase_files (env : TaskEnv) (b : Bool) (s : CaptureSt) :
    (scrollPhase env b s).2.2 = s.2 := by
  cases b <;> cases h1 : env.scrollDownRes <;> cases h2 : env.scrollTopRes <;>
    simp [scrollPhase, andThen, stepEv, h1, h2]

lemma capturePhase_ok_files (env : TaskEnv) (png webp : List Char)
    (s : CaptureSt) (h : (capturePhase env png webp s).1 = .ok ()) :
    (capturePhase env png webp s).2.2 =
      (s.2 ++ [png, webp]).filter (fun f => decide (f ≠ png)) := by
  cases hw : env.waitForLoadStateRes <;> cases hsc : env.screenshotRes <;>
    cases hcv : env.sharpRes <;> cases hun : env.unlinkRes <;>
      simp [capturePhase, andThen, stepEv, hw, hsc, hcv, hun] at h ⊢

lemma afterConsent_ok_files (env : TaskEnv) (png webp : List Char)
    (consent : Bool) (s : CaptureSt)
    (h : (andThen (scrollPhase env consent) (capturePhase env png webp) s).1 = .ok ()) :
    (andThen (scrollPhase env consent) (capturePhase env png webp) s).2.2 =
      (s.2 ++ [png, webp]).filter (fun f => decide (f ≠ png)) := by
  unfold andThen at h ⊢
  rcases hs : scrollPhase env consent s with ⟨rs, ss⟩
  cases rs with
  | error m => simp [hs] at h
  | ok u =>
    simp only [hs] at h ⊢
    have hss : ss.2 = s.2 := by
      have hp := scrollPhase_files env consent s
      rw [hs] at hp
      exact hp
    rw [capturePhase_ok_files env png webp ss h, hss]

lemma tryBody_ok_files (env : TaskEnv) (url dir : String) (device : Device)
    (h : (tryBody env url device dir).1 = .ok ()) :
    (tryBody env url device dir).2.2 =
      [replacePngWithWebpL (pngPathL dir url device)] := by
  unfold tryBody at h ⊢
  rcases hn : navigatePhase env url ([], []) with ⟨rn, sn⟩
  cases rn with
  | error m => simp [hn] at h
  | ok u =>
    simp only [hn] at h ⊢
    rcases hc : consentPhase env sn with ⟨sc, consent⟩
    simp only [hc] at h ⊢
    have hsn : sn.2 = ([] : List (List Char)) := by
      have hp := navigatePhase_files env url ([], [])
      rw [hn] at hp
      exact hp
    have hsc : sc.2 = ([] : List (List Char)) := by
      have hp := consentPhase_files env sn
      rw [hc] at hp
      rw [hp, hsn]
    rw [afterConsent_ok_files env _ _ consent sc h, hsc]
    simp [List.filter, webpPath_ne_pngPath dir url device]

/-- Claim C8: every successful task — for any collaborator behaviour that
lets the task fulfill, including the common paths where the consent wait
times out or the click throws — leaves exactly one file, the WebP artifact
at `<root>/<YYYY-MM-DD_HHMM>/<urlSlug>_<deviceName>_<width>.webp`; the
intermediate PNG of the same stem, created first, is deleted after the
re-encode and is absent from the final file set.  Concretely, url
`https://a.test` with device desktop 1280x800 yields
`<run-dir>/a_test_desktop_1280.webp`. -/
theorem successfulTask_artifact (env : TaskEnv) (url root : String)
    (device : Device) (y mo d h mi : Nat)
    (hful : (takeSingleScreenshot env url device
      (root ++ "/" ++ currentDateTime y mo d h mi)).outcome.status = "fulfilled") :
    (takeSingleScreenshot env url device
      (root ++ "/" ++ currentDateTime y mo d h mi)).files =
      [(root ++ "/" ++ currentDateTime y mo d h mi).data ++ ['/'] ++
        urlFilenameL url.data ++ ['_'] ++ device.name.data ++ ['_'] ++
        (Nat.repr device.width).data ++ webpExtChars] ∧
    pngPathL (root ++ "/" ++ currentDateTime y mo d h mi) url device ∉
      (takeSingleScreenshot env url device
        (root ++ "/" ++ currentDateTime y mo d h mi)).files ∧
    currentDateTime 2025 10 11 9 30 = "2025-10-11_0930" ∧
    (takeSingleScreenshot {} "https://a.test"
      { name := "desktop", width := 1280, height := 800 } "run").files =
      ["run/a_test_desktop_1280.webp".data] := by
  rcases htb : tryBody env url device (root ++ "/" ++ currentDateTime y mo d h mi)
    with ⟨res, st⟩
  cases res with
  | error m =>
    exfalso
    simp [takeSingleScreenshot, htb] at hful
  | ok u =>
    have hok : (tryBody env url device
        (root ++ "/" ++ currentDateTime y mo d h mi)).1 = .ok () := by
      rw [htb]
    have hfl := tryBody_ok_files env url
      (root ++ "/" ++ currentDateTime y mo d h mi) device hok
    rw [htb] at hfl
    refine ⟨?_, ?_, by decide, ?_⟩
    · have hfiles : (takeSingleScreenshot env url device
          (root ++ "/" ++ currentDateTime y mo d h mi)).files = st.2 := by
        simp [takeSingleScreenshot, htb]
      rw [hfiles, hfl, replacePng_pngPath]
    · have hfiles : (takeSingleScreenshot env url device
          (root ++ "/" ++ currentDateTime y mo d h mi)).files = st.2 := by
        simp [takeSingleScreenshot, htb]
      rw [hfiles, hfl]
      simp only [List.mem_singleton]
      intro hmem
      exact webpPath_ne_pngPath _ _ _ hmem.symm
    · rw [task_allOk]
      decide

/-- Witness for C8 at a concrete environment in which the consent wait
times out (swallowed) and the task still fulfills. -/
theorem successfulTask_artifact_witness :
    (takeSingleScreenshot { waitForSelectorRes := some "Timeout 5000ms exceeded" }
      "https://a.test" { name := "desktop", width := 1280, height := 800 }
      ("shots" ++ "/" ++ currentDateTime 2025 10 11 9 30)).files =
      [("shots" ++ "/" ++ currentDateTime 2025 10 11 9 30).data ++ ['/'] ++
        urlFilenameL "https://a.test".data ++ ['_'] ++
        ("desktop" : String).data ++ ['_'] ++ (Nat.repr 1280).data ++
        webpExtChars] ∧
    pngPathL ("shots" ++ "/" ++ currentDateTime 2025 10 11 9 30) "https://a.test"
      { name := "desktop", width := 1280, height := 800 } ∉
      (takeSingleScreenshot { waitForSelectorRes := some "Timeout 5000ms exceeded" }
        "https://a.test" { name := "desktop", width := 1280, height := 800 }
        ("shots" ++ "/" ++ currentDateTime 2025 10 11 9 30)).files ∧
    currentDateTime 2025 10 11 9 30 = "2025-10-11_0930" ∧
    (takeSingleScreenshot {} "https://a.test"
      { name := "desktop", width := 1280, height := 800 } "run").files =
      ["run/a_test_desktop_1280.webp".data] :=
  successfulTask_artifact { waitForSelectorRes := some "Timeout 5000ms exceeded" }
    "https://a.test" "shots" { name := "desktop", width := 1280, height := 800 }
    2025 10 11 9 30 (by decide)

/-- Counterexample to claim C9 as stated: on a config whose `urlList` is
empty (validation fails, exit code 1, browser never launched), the
module-level side effect has already created the root output directory —
src/main.js lines 39-42 run at import time, before any validation. -/
theorem rootDir_created_before_validation :
    programRun false
        { urlList := some [],
          deviceSizes := some [{ name := "desktop", width := 1280, height := 800 }] }
        false (fun _ _ => {}) "out" =
      { events := [.mkdirOutputRoot], exitCode := 1, summary := none } ∧
    validUrlList
        { urlList := some [],
          deviceSizes := some [{ name := "desktop", width := 1280, height := 800 }] } =
      false ∧
    RunEvent.mkdirOutputRoot ∈
      (programRun false
        { urlList := some [],
          deviceSizes := some [{ name := "desktop", width := 1280, height := 800 }] }
        false (fun _ _ => {}) "out").events := by
  exact ⟨rfl, rfl, by decide⟩

/-- Claim C9 as amended: when validation of `urlList` or `deviceSizes`
fails, the run exits with code 1, never launches the browser, never creates
the timestamped run directory, and reaches no summary; the only side effect
preceding validation is the module-level creation of the root output
directory at import time. -/
theorem validationFailure_aborts (rootExists runDirExists : Bool) (c : Config)
    (taskEnv : String → Device → TaskEnv) (dir : String)
    (h : validUrlList c = false ∨ validDeviceSizes c = false) :
    (programRun rootExists c runDirExists taskEnv dir).exitCode = 1 ∧
    (programRun rootExists c runDirExists taskEnv dir).summary = none ∧
    RunEvent.launchBrowser ∉ (programRun rootExists c runDirExists taskEnv dir).events ∧
    RunEvent.mkdirRunDir ∉ (programRun rootExists c runDirExists taskEnv dir).events := by
  have habort : mainRun c runDirExists taskEnv dir =
      { events := [], exitCode := 1, summary := none } := by
    rcases h with h | h
    · simp [mainRun, h]
    · cases hv : validUrlList c <;> simp [mainRun, hv, h]
  cases rootExists <;>
    simp [programRun, habort, moduleInitEvents]

/-- Witness for C9 (amended) at a concrete invalid config. -/
theorem validationFailure_aborts_witness :
    (programRun true { urlList := some [] } true (fun _ _ => {}) "out").exitCode = 1 ∧
    (programRun true { urlList := some [] } true (fun _ _ => {}) "out").summary = none ∧
    RunEvent.launchBrowser ∉
      (programRun true { urlList := some [] } true (fun _ _ => {}) "out").events ∧
    RunEvent.mkdirRunDir ∉
      (programRun true { urlList := some [] } true (fun _ _ => {}) "out").events :=
  validationFailure_aborts true true { urlList := some [] } (fun _ _ => {}) "out"
    (Or.inl rfl)
